import Mathlib

/-!
# Wercker pipeline core: step fetching, guest provisioning, service boxes

A shallow embedding of `pipeline.go` (`BasePipeline`) and `service.go`
(`ServiceBox`).  Collaborators that perform effects (steps, the session, the
docker client) are records of their observable behaviour, and every method
that talks to one returns, next to its Go result, the ordered list of calls
it made.
-/

namespace Wercker

/-! ## Shared data -/

/-- Go `error` value; two errors are the same when their messages are. -/
structure Error where
  msg : String
deriving DecidableEq, Repr

/-- Go `fmt.Errorf` applied to an already formatted message. -/
def Errorf (msg : String) : Error := ⟨msg⟩

/-- Step of a pipeline.  `Fetch` is the `(location, err)` pair that the
step's `Fetch()` method answers with (`step.go` is an external collaborator,
so its behaviour is carried by the value). -/
structure Step where
  Name : String
  ID : String
  Fetch : String × Option Error
deriving DecidableEq, Repr

/-- Run options.  `GuestPath` and `MntPath` are the variadic path resolvers of
the options object; their bodies live outside these sources and are kept as
parameters. -/
structure GlobalOptions where
  GuestPath : List String → String
  MntPath : List String → String
  SourceDir : String
  ApplicationID : String
  ApplicationName : String
  ApplicationOwnerName : String
  BaseURL : String

/-- Ordered environment of a pipeline together with its serialised form, the
argument list `Export()` hands to the session. -/
structure Environment where
  Ordered : List (List String)
  Export : List String

/-- Go struct `BasePipeline`. -/
structure BasePipeline where
  options : GlobalOptions
  env : Environment
  steps : List Step

/-- Go `NewBasePipeline`: the environment starts empty. -/
def NewBasePipeline (options : GlobalOptions) (steps : List Step) : BasePipeline :=
  { options := options, env := { Ordered := [], Export := [] }, steps := steps }

/-! ## Step fetching -/

/-- Effects of `FetchSteps`, in program order. -/
inductive FetchEvent where
  | println (args : List String)
  | fetch (step : Step)
deriving DecidableEq, Repr

/-- The `for _, step := range p.steps` loop of `FetchSteps`. -/
def fetchLoop : List Step → Option Error × List FetchEvent
  | [] => (none, [])
  | step :: rest =>
    let logged := FetchEvent.println ["Fetching Step:", step.Name, step.ID]
    match step.Fetch.2 with
    | some err => (some err, [logged, FetchEvent.fetch step])
    | none =>
      let r := fetchLoop rest
      (r.1, logged :: FetchEvent.fetch step :: r.2)

/-- Go `(*BasePipeline).FetchSteps`: the returned error and the effects. -/
def FetchSteps (p : BasePipeline) : Option Error × List FetchEvent :=
  fetchLoop p.steps

/-- The steps on which `Fetch` was called, in call order. -/
def fetchCalls : List FetchEvent → List Step
  | [] => []
  | FetchEvent.fetch s :: rest => s :: fetchCalls rest
  | FetchEvent.println _ :: rest => fetchCalls rest

/-! ## Environment composition -/

/-- Go `(*BasePipeline).CommonEnv`; `fmt.Sprintf` with `%s` verbs is string
concatenation. -/
def CommonEnv (p : BasePipeline) : List (List String) :=
  [ ["WERCKER", "true"],
    ["WERCKER_ROOT", p.options.GuestPath ["source"]],
    ["WERCKER_SOURCE_DIR", p.options.GuestPath ["source", p.options.SourceDir]],
    ["WERCKER_CACHE_DIR", "/cache"],
    ["WERCKER_OUTPUT_DIR", p.options.GuestPath ["output"]],
    ["WERCKER_PIPELINE_DIR", p.options.GuestPath []],
    ["WERCKER_REPORT_DIR", p.options.GuestPath ["report"]],
    ["WERCKER_APPLICATION_ID", p.options.ApplicationID],
    ["WERCKER_APPLICATION_NAME", p.options.ApplicationName],
    ["WERCKER_APPLICATION_OWNER_NAME", p.options.ApplicationOwnerName],
    ["WERCKER_APPLICATION_URL",
      p.options.BaseURL ++ "#application/" ++ p.options.ApplicationID],
    ["TERM", "xterm-256color"] ]

/-- Variable name of a `[]string{name, value}` pair: the Go `pair[0]`. -/
def pairName (pair : List String) : String := pair.headD ""

/-- Value of a `[]string{name, value}` pair: the Go `pair[1]`. -/
def pairValue (pair : List String) : String := pair.getD 1 ""

/-- Value bound to `name` by the first pair carrying that name. -/
def lookupEnv (name : String) : List (List String) → Option String
  | [] => none
  | pair :: rest => if pairName pair = name then some (pairValue pair) else lookupEnv name rest

/-! ## Session -/

/-- The triple `(exit, output, err)` that `SendChecked` returns. -/
structure SendResult where
  exit : Int
  output : String
  err : Option Error
deriving DecidableEq, Repr

/-- Modelled from the spec: the `Session` collaborator (`session.go` is not
among the sources).  `logsHidden` is the visibility flag that
`hideLogs()` / `showLogs()` toggle, `sent` records every `sendChecked` call with
the flag in force when it was sent, and `respond` is the behaviour of the
guest: its answer to the call made after `n` earlier ones. -/
structure Session where
  logsHidden : Bool
  sent : List (List String × Bool)
  respond : Nat → List String → SendResult

/-- Modelled from the spec: `hideLogs()` hides subsequent sends. -/
def Session.HideLogs (s : Session) : Session := { s with logsHidden := true }

/-- Modelled from the spec: `showLogs()` makes subsequent sends visible. -/
def Session.ShowLogs (s : Session) : Session := { s with logsHidden := false }

/-- Modelled from the spec: `sendChecked(commands...)` delivers one batch of
commands and answers with `(exitStatus, output, err)`. -/
def Session.SendChecked (s : Session) (commands : List String) : SendResult × Session :=
  (s.respond s.sent.length commands, { s with sent := s.sent ++ [(commands, s.logsHidden)] })

/-! ## Guest provisioning and environment export -/

/-- The `for _, cmd := range cmds` loop of `SetupGuest`. -/
def sendLoop : List String → Session → Option Error × Session
  | [], s => (none, s)
  | cmd :: rest, s =>
    let r := s.SendChecked [cmd]
    match r.1.err with
    | some err => (some err, r.2)
    | none =>
      if r.1.exit ≠ 0 then (some (Errorf ("Geust command failed: " ++ cmd)), r.2)
      else sendLoop rest r.2

/-- Go `(*BasePipeline).SetupGuest`.  The deferred `sess.ShowLogs()` runs when
the function returns, on every path. -/
def SetupGuest (p : BasePipeline) (sess : Session) : Option Error × Session :=
  let hidden := sess.HideLogs
  let cmds := [
    "mkdir \"" ++ p.options.GuestPath [] ++ "\"",
    "mkdir \"" ++ p.options.GuestPath ["output"] ++ "\"",
    "mkdir \"" ++ "/cache" ++ "\"",
    "cp -r \"" ++ p.options.MntPath ["source"] ++ "\" \"" ++ p.options.GuestPath ["source"] ++ "\""
  ]
  let r := sendLoop cmds hidden
  (r.1, r.2.ShowLogs)

/-- Go `(*BasePipeline).ExportEnvironment`; `%d` prints the exit status in
decimal. -/
def ExportEnvironment (p : BasePipeline) (sess : Session) : Option Error × Session :=
  let r := sess.SendChecked p.env.Export
  match r.1.err with
  | some err => (some err, r.2)
  | none =>
    if r.1.exit ≠ 0 then
      (some (Errorf ("Build failed with exit code: " ++ toString r.1.exit)), r.2)
    else (none, r.2)

/-- The answer of session `s` to the `j`-th call (counted from 0) made from
now on, when that call carries `commands`. -/
def Session.reply (s : Session) (j : Nat) (commands : List String) : SendResult :=
  s.respond (s.sent.length + j) commands

/-- A send went through: no transport error and exit status 0. -/
def SendResult.succeeded (r : SendResult) : Prop := r.err = none ∧ r.exit = 0

/-- The calls made on a session since it was in state `before`. -/
def Session.sentSince (after before : Session) : List (List String × Bool) :=
  after.sent.drop before.sent.length

/-- The error `SetupGuest` returns for a command whose send did not go
through: the transport error when there is one, the command-failed error
otherwise. -/
def guestError (cmd : String) (r : SendResult) : Error :=
  match r.err with
  | some err => err
  | none => Errorf ("Geust command failed: " ++ cmd)

/-- The four guest commands in the order the specification lists them:
mkdir root, mkdir output, mkdir cache, copy source. -/
def provisioningCommands (o : GlobalOptions) : List String :=
  [ "mkdir \"" ++ o.GuestPath [] ++ "\"",
    "mkdir \"" ++ o.GuestPath ["output"] ++ "\"",
    "mkdir \"/cache\"",
    "cp -r \"" ++ o.MntPath ["source"] ++ "\" \"" ++ o.GuestPath ["source"] ++ "\"" ]

/-- The answer `SetupGuest` gets to its `j`-th command when started on `s`. -/
def setupReply (p : BasePipeline) (s : Session) (j : Nat) : SendResult :=
  s.reply j [(provisioningCommands p.options).getD j ""]

/-! ## Service boxes -/

/-- Go `strings.Replace(s, old, new, -1)` for one-character `old` and `new`:
every occurrence of `old` is replaced. -/
def stringsReplaceAll (s : String) (old new : Char) : String :=
  ⟨s.data.map (fun c => if c = old then new else c)⟩

/-- The part of `docker.Container` the service box reads. -/
structure Container where
  ID : String
deriving DecidableEq, Repr

/-- The fields of `docker.Config` that `Run` sets. -/
structure Config where
  Image : String
  NetworkDisabled : Bool
deriving DecidableEq, Repr

/-- Go `docker.CreateContainerOptions`. -/
structure CreateContainerOptions where
  Name : String
  Config : Config
deriving DecidableEq, Repr

/-- The process streams `os.Stdout` and `os.Stderr`. -/
inductive Stream where
  | Stdout
  | Stderr
deriving DecidableEq, Repr

/-- Go `docker.LogsOptions`. -/
structure LogsOptions where
  Container : String
  Stdout : Bool
  Stderr : Bool
  ErrorStream : Stream
  OutputStream : Stream
  RawTerminal : Bool
deriving DecidableEq, Repr

/-- Behaviour of the docker client: what each request answers with.
`CreateContainer` answers `(container, err)`, `StartContainer` and `Logs`
answer `err`, `WaitContainer` answers `(status, err)`. -/
structure Client where
  CreateContainer : CreateContainerOptions → Option Container × Option Error
  StartContainer : String → Option Error
  WaitContainer : String → Int × Option Error
  Logs : LogsOptions → Option Error

/-- The field of the pipeline options that `Run` reads. -/
structure PipelineOptions where
  PipelineID : String
deriving DecidableEq, Repr

/-- Go struct `ServiceBox`, with the fields of the embedded `*Box` that `Run`
uses; `container` is the manager's current container. -/
structure ServiceBox where
  Name : String
  options : PipelineOptions
  client : Client
  networkDisabled : Bool
  container : Option Container

/-- Effects of the monitor goroutine, in program order. -/
inductive MonitorEvent where
  | waitContainer (id : String)
  | errorln (msg : String) (err : Error)
  | debugln (msg : String) (status : Int) (id : String)
  | logs (opts : LogsOptions)
  | panicln (err : Error)
deriving DecidableEq, Repr

/-- The body of the `go func() { ... }()` in `Run`, as a sequential function
of the client's answers. -/
def monitor (client : Client) (container : Container) : List MonitorEvent :=
  let r := client.WaitContainer container.ID
  let status := r.1
  let waited :=
    [MonitorEvent.waitContainer container.ID] ++
    (match r.2 with
      | some err => [MonitorEvent.errorln "Error waiting" err]
      | none => []) ++
    [MonitorEvent.debugln "Service container finished with status code:" status container.ID]
  if status ≠ 0 then
    let opts : LogsOptions :=
      { Container := container.ID
        Stdout := true
        Stderr := true
        ErrorStream := Stream.Stderr
        OutputStream := Stream.Stdout
        RawTerminal := false }
    waited ++ [MonitorEvent.logs opts] ++
      (match client.Logs opts with
        | some err => [MonitorEvent.panicln err]
        | none => [])
  else waited

/-- The log retrievals among the monitor's effects, in order. -/
def logsCalls : List MonitorEvent → List LogsOptions
  | [] => []
  | MonitorEvent.logs opts :: rest => opts :: logsCalls rest
  | _ :: rest => logsCalls rest

/-- The errors the monitor aborts with (`Panicln`), in order. -/
def panics : List MonitorEvent → List Error
  | [] => []
  | MonitorEvent.panicln err :: rest => err :: panics rest
  | _ :: rest => panics rest

/-- Contract of the docker client library (go-dockerclient, which is not part
of this repository): `WaitContainer` answers status 0 on every path on which it
answers an error. -/
def waitStatusZeroOnError (client : Client) : Prop :=
  ∀ id, (client.WaitContainer id).2 ≠ none → (client.WaitContainer id).1 = 0

/-- Requests `Run` itself sends to the docker client, before it returns. -/
inductive ClientCall where
  | createContainer (opts : CreateContainerOptions)
  | startContainer (id : String)
deriving DecidableEq, Repr

/-- What a call of `Run` leaves behind: the returned `(container, err)` pair
(`none` when `Run` does not return because `container.ID` is read from a nil
container), the service box afterwards, the client requests made before
returning, and the containers for which a monitor goroutine was spawned. -/
structure RunOutcome where
  returned : Option (Option Container × Option Error)
  box : ServiceBox
  calls : List ClientCall
  spawned : List Container

/-- Go `(*ServiceBox).Run`. -/
def Run (b : ServiceBox) : RunOutcome :=
  let containerName :=
    "wercker-service-" ++ stringsReplaceAll b.Name '/' '-' ++ "-" ++ b.options.PipelineID
  let opts : CreateContainerOptions :=
    { Name := containerName
      Config := { Image := b.Name, NetworkDisabled := b.networkDisabled } }
  let created := b.client.CreateContainer opts
  match created.2 with
  | some err =>
    { returned := some (none, some err)
      box := b
      calls := [ClientCall.createContainer opts]
      spawned := [] }
  | none =>
    match created.1 with
    | none =>
      { returned := none
        box := b
        calls := [ClientCall.createContainer opts]
        spawned := [] }
    | some container =>
      { returned := some (some container, none)
        box := { b with container := some container }
        calls := [ClientCall.createContainer opts, ClientCall.startContainer container.ID]
        spawned := [container] }

/-- The container names `Run` passed to container creation. -/
def createdNames : List ClientCall → List String
  | [] => []
  | ClientCall.createContainer opts :: rest => opts.Name :: createdNames rest
  | _ :: rest => createdNames rest

/-- The container ids for which `Run` sent a start request. -/
def startedIds : List ClientCall → List String
  | [] => []
  | ClientCall.startContainer id :: rest => id :: startedIds rest
  | _ :: rest => startedIds rest

/-- A docker client for the examples: creation yields container `c1`, start
succeeds, the wait answers `(status, waitErr)` and log retrieval `logsErr`. -/
def exampleClient (status : Int) (waitErr logsErr : Option Error) : Client :=
  { CreateContainer := fun _ => (some { ID := "c1" }, none)
    StartContainer := fun _ => none
    WaitContainer := fun _ => (status, waitErr)
    Logs := fun _ => logsErr }

/-- A service box for the examples. -/
def exampleBox (name pipelineID : String) : ServiceBox :=
  { Name := name
    options := { PipelineID := pipelineID }
    client := exampleClient 0 none none
    networkDisabled := false
    container := none }

/-! ## Concrete inputs -/

/-- Run options for the examples: guest paths under `/pipeline`, mounted
paths under `/mnt`. -/
def exampleOptions : GlobalOptions :=
  { GuestPath := fun segments => segments.foldl (fun acc seg => acc ++ "/" ++ seg) "/pipeline"
    MntPath := fun segments => segments.foldl (fun acc seg => acc ++ "/" ++ seg) "/mnt"
    SourceDir := "src"
    ApplicationID := "app1"
    ApplicationName := "demo"
    ApplicationOwnerName := "owner"
    BaseURL := "https://app.wercker.com/" }

/-- A pipeline for the examples, over the given steps. -/
def examplePipeline (steps : List Step) : BasePipeline :=
  { options := exampleOptions
    env := { Ordered := [["X", "1"]], Export := ["export X=\"1\""] }
    steps := steps }

/-- A fresh, visible session whose guest answers `answer` to call number
`call` (counted from 0) and exit status 0 without error to every other call. -/
def exampleSession (call : Nat) (answer : SendResult) : Session :=
  { logsHidden := false
    sent := []
    respond := fun n _ => if n = call then answer else { exit := 0, output := "", err := none } }

/-- Three steps for the examples; the second fails to fetch. -/
def exampleSteps : List Step :=
  [ { Name := "a", ID := "1", Fetch := ("/steps/a", none) },
    { Name := "b", ID := "2", Fetch := ("", some ⟨"not found"⟩) },
    { Name := "c", ID := "3", Fetch := ("/steps/c", none) } ]

/-! ## Lemmas: step fetching -/

theorem fetchLoop_calls_of_error (steps : List Step) (e : Error)
    (h : (fetchLoop steps).1 = some e) :
    ∃ pre s post, steps = pre ++ s :: post ∧ (∀ t ∈ pre, t.Fetch.2 = none) ∧
      s.Fetch.2 = some e ∧ fetchCalls (fetchLoop steps).2 = pre ++ [s] := by
  induction steps with
  | nil => simp [fetchLoop] at h
  | cons step rest ih =>
    cases hf : step.Fetch.2 with
    | some err =>
      simp only [fetchLoop, hf] at h ⊢
      refine ⟨[], step, rest, rfl, by simp, ?_, by simp [fetchCalls]⟩
      rw [hf]; exact h
    | none =>
      simp only [fetchLoop, hf] at h ⊢
      obtain ⟨pre, s, post, hsteps, hpre, hs, hcalls⟩ := ih h
      refine ⟨step :: pre, s, post, by simp [hsteps], ?_, hs, by simp [fetchCalls, hcalls]⟩
      intro t ht
      rcases List.mem_cons.mp ht with rfl | ht
      · exact hf
      · exact hpre t ht

theorem fetchLoop_calls_of_nil (steps : List Step)
    (h : (fetchLoop steps).1 = none) :
    (∀ s ∈ steps, s.Fetch.2 = none) ∧ fetchCalls (fetchLoop steps).2 = steps := by
  induction steps with
  | nil => simp [fetchLoop, fetchCalls]
  | cons step rest ih =>
    cases hf : step.Fetch.2 with
    | some err => simp [fetchLoop, hf] at h
    | none =>
      simp only [fetchLoop, hf] at h ⊢
      obtain ⟨hall, hcalls⟩ := ih h
      refine ⟨?_, by simp [fetchCalls, hcalls]⟩
      intro t ht
      rcases List.mem_cons.mp ht with rfl | ht
      · exact hf
      · exact hall t ht

/-! ## Lemmas: the command loop -/

theorem reply_after_send (s : Session) (c : List String) (j : Nat) (x : List String) :
    (s.SendChecked c).2.reply j x = s.reply (j + 1) x := by
  simp [Session.SendChecked, Session.reply, Nat.add_comm, Nat.add_left_comm]

theorem sendLoop_head_ok (c : String) (rest : List String) (s : Session)
    (h : (s.reply 0 [c]).succeeded) :
    sendLoop (c :: rest) s = sendLoop rest (s.SendChecked [c]).2 := by
  have h0 : (s.SendChecked [c]).1 = s.reply 0 [c] := by
    simp [Session.SendChecked, Session.reply]
  obtain ⟨herr, hexit⟩ := h
  simp only [sendLoop, h0, herr, hexit]
  simp

theorem sendLoop_head_bad (c : String) (rest : List String) (s : Session)
    (h : ¬ (s.reply 0 [c]).succeeded) :
    sendLoop (c :: rest) s = (some (guestError c (s.reply 0 [c])), (s.SendChecked [c]).2) := by
  have h0 : (s.SendChecked [c]).1 = s.reply 0 [c] := by
    simp [Session.SendChecked, Session.reply]
  cases herr : (s.reply 0 [c]).err with
  | some e => simp [sendLoop, h0, herr, guestError]
  | none =>
    have hexit : (s.reply 0 [c]).exit ≠ 0 := fun hz => h ⟨herr, hz⟩
    simp [sendLoop, h0, herr, guestError, hexit]

/-- When every command goes through, the loop sends all of them and returns nil. -/
theorem sendLoop_all_ok (cmds : List String) : ∀ (s : Session),
    (∀ j, j < cmds.length → (s.reply j [cmds.getD j ""]).succeeded) →
    sendLoop cmds s =
      (none, { s with sent := s.sent ++ cmds.map (fun c => ([c], s.logsHidden)) }) := by
  induction cmds with
  | nil => intro s _; simp [sendLoop]
  | cons c rest ih =>
    intro s h
    have h0 : (s.reply 0 [c]).succeeded := by simpa using h 0 (by simp)
    rw [sendLoop_head_ok c rest s h0, ih]
    · simp [Session.SendChecked]
    · intro j hj
      rw [reply_after_send]
      simpa using h (j + 1) (by simpa using hj)

/-- When command `k` is the first that does not go through, the loop sends the
first `k + 1` commands and returns the error of command `k`. -/
theorem sendLoop_first_bad (cmds : List String) : ∀ (s : Session) (k : Nat),
    k < cmds.length →
    (∀ j, j < k → (s.reply j [cmds.getD j ""]).succeeded) →
    ¬ (s.reply k [cmds.getD k ""]).succeeded →
    sendLoop cmds s =
      (some (guestError (cmds.getD k "") (s.reply k [cmds.getD k ""])),
        { s with sent := s.sent ++ (cmds.take (k + 1)).map (fun c => ([c], s.logsHidden)) }) := by
  induction cmds with
  | nil => intro s k hk; simp at hk
  | cons c rest ih =>
    intro s k hk hgood hbad
    cases k with
    | zero =>
      rw [sendLoop_head_bad c rest s (by simpa using hbad)]
      simp [Session.SendChecked]
    | succ k =>
      have h0 : (s.reply 0 [c]).succeeded := by simpa using hgood 0 (by simp)
      rw [sendLoop_head_ok c rest s h0, ih _ k (by simpa using hk)]
      · simp [Session.SendChecked, reply_after_send]
        simp [Session.reply, Session.SendChecked, Nat.add_comm, Nat.add_left_comm]
      · intro j hj
        rw [reply_after_send]
        simpa using hgood (j + 1) (by omega)
      · rw [reply_after_send]
        simpa using hbad

/-- Either every command goes through or there is a first one that does not. -/
theorem all_ok_or_first_bad (n : Nat) (good : Nat → Prop) :
    (∀ j, j < n → good j) ∨ ∃ k, k < n ∧ (∀ j, j < k → good j) ∧ ¬ good k := by
  induction n with
  | zero => left; intro j hj; omega
  | succ n ih =>
    rcases ih with hall | ⟨k, hk, hpre, hbad⟩
    · by_cases hn : good n
      · left
        intro j hj
        rcases Nat.lt_succ_iff_lt_or_eq.mp hj with hlt | rfl
        · exact hall j hlt
        · exact hn
      · exact Or.inr ⟨n, Nat.lt_succ_self n, hall, hn⟩
    · exact Or.inr ⟨k, Nat.lt_succ_of_lt hk, hpre, hbad⟩

/-! ## Lemmas: guest provisioning -/

theorem SetupGuest_unfold (p : BasePipeline) (s : Session) :
    SetupGuest p s =
      ((sendLoop (provisioningCommands p.options) s.HideLogs).1,
        (sendLoop (provisioningCommands p.options) s.HideLogs).2.ShowLogs) := by
  simp [SetupGuest, provisioningCommands]

theorem SetupGuest_all_ok (p : BasePipeline) (s : Session)
    (h : ∀ j, j < 4 → (setupReply p s j).succeeded) :
    SetupGuest p s =
      (none, { s with
        logsHidden := false
        sent := s.sent ++ (provisioningCommands p.options).map (fun c => ([c], true)) }) := by
  rw [SetupGuest_unfold, sendLoop_all_ok]
  · simp [Session.HideLogs, Session.ShowLogs]
  · intro j hj
    exact h j (by simpa [provisioningCommands] using hj)

theorem SetupGuest_first_bad (p : BasePipeline) (s : Session) (k : Nat) (hk : k < 4)
    (hgood : ∀ j, j < k → (setupReply p s j).succeeded)
    (hbad : ¬ (setupReply p s k).succeeded) :
    SetupGuest p s =
      (some (guestError ((provisioningCommands p.options).getD k "") (setupReply p s k)),
        { s with
          logsHidden := false
          sent := s.sent ++
            ((provisioningCommands p.options).take (k + 1)).map (fun c => ([c], true)) }) := by
  rw [SetupGuest_unfold, sendLoop_first_bad _ _ k (by simpa [provisioningCommands] using hk)]
  · simp [Session.HideLogs, Session.ShowLogs, setupReply, Session.reply]
  · exact hgood
  · exact hbad

theorem SetupGuest_nil_iff (p : BasePipeline) (s : Session) :
    (SetupGuest p s).1 = none ↔
      ∀ j, j < ((SetupGuest p s).2.sentSince s).length → (setupReply p s j).succeeded := by
  rcases all_ok_or_first_bad 4 (fun j => (setupReply p s j).succeeded) with
    hall | ⟨k, hk, hgood, hbad⟩
  · rw [SetupGuest_all_ok p s hall]
    simp only [Session.sentSince, List.drop_left, List.length_map, true_iff]
    intro j hj
    exact hall j (by simpa [provisioningCommands] using hj)
  · rw [SetupGuest_first_bad p s k hk hgood hbad]
    simp only [Session.sentSince, List.drop_left, List.length_map, List.length_take]
    constructor
    · intro h; cases h
    · intro h
      exact absurd (h k (by simp [provisioningCommands]; omega)) hbad

/-! ## Lemmas: environment export -/

theorem ExportEnvironment_sent (p : BasePipeline) (s : Session) :
    (ExportEnvironment p s).2.sent = s.sent ++ [(p.env.Export, s.logsHidden)] := by
  simp only [ExportEnvironment]
  split
  · rfl
  · split <;> rfl

theorem ExportEnvironment_result (p : BasePipeline) (s : Session) :
    (ExportEnvironment p s).1 =
      match (s.reply 0 p.env.Export).err with
      | some e => some e
      | none =>
        if (s.reply 0 p.env.Export).exit ≠ 0 then
          some (Errorf ("Build failed with exit code: " ++
            toString (s.reply 0 p.env.Export).exit))
        else none := by
  have h0 : (s.SendChecked p.env.Export).1 = s.reply 0 p.env.Export := by
    simp [Session.SendChecked, Session.reply]
  simp only [ExportEnvironment, h0]
  cases (s.reply 0 p.env.Export).err with
  | some e => rfl
  | none =>
    by_cases hz : (s.reply 0 p.env.Export).exit = 0
    · simp [hz]
    · simp [hz]

/-! ## Claims -/

/-- C1: `FetchSteps` calls `Fetch` on a prefix of the declared step list, in
declared order and once per position; when it returns an error, that error is
the one of the first failing step, every step before it succeeded, and the
calls stop at that step; it returns nil exactly when every step's fetch
succeeded, and then every step has been fetched. -/
theorem FetchSteps_first_failure (p : BasePipeline) :
    (∃ k, k ≤ p.steps.length ∧ fetchCalls (FetchSteps p).2 = p.steps.take k) ∧
    (∀ e, (FetchSteps p).1 = some e →
      ∃ pre s post, p.steps = pre ++ s :: post ∧ (∀ t ∈ pre, t.Fetch.2 = none) ∧
        s.Fetch.2 = some e ∧ fetchCalls (FetchSteps p).2 = pre ++ [s]) ∧
    ((FetchSteps p).1 = none ↔ ∀ s ∈ p.steps, s.Fetch.2 = none) ∧
    ((FetchSteps p).1 = none → fetchCalls (FetchSteps p).2 = p.steps) := by
  have herr := fetchLoop_calls_of_error p.steps
  have hnil := fetchLoop_calls_of_nil p.steps
  refine ⟨?_, herr, ⟨fun h => (hnil h).1, ?_⟩, fun h => (hnil h).2⟩
  · cases hres : (FetchSteps p).1 with
    | none =>
      refine ⟨p.steps.length, le_refl _, ?_⟩
      rw [List.take_length]
      exact (hnil hres).2
    | some e =>
      obtain ⟨pre, s, post, hsteps, -, -, hcalls⟩ := herr e hres
      refine ⟨pre.length + 1, ?_, ?_⟩
      · rw [hsteps]; simp
      · rw [show FetchSteps p = fetchLoop p.steps from rfl, hcalls, hsteps]
        simp [List.take_append_eq_append_take]
  · intro hall
    cases hres : (FetchSteps p).1 with
    | none => rfl
    | some e =>
      obtain ⟨pre, s, post, hsteps, -, hs, -⟩ := herr e hres
      have := hall s (by rw [hsteps]; simp)
      rw [this] at hs
      cases hs

/-- C1 at a concrete input: of three steps the second fails to fetch with
"not found"; `FetchSteps` returns that error after fetching the first two. -/
theorem FetchSteps_first_failure_witness :
    (FetchSteps (examplePipeline exampleSteps)).1 = some ⟨"not found"⟩ ∧
    ∃ pre s post, (examplePipeline exampleSteps).steps = pre ++ s :: post ∧
      (∀ t ∈ pre, t.Fetch.2 = none) ∧ s.Fetch.2 = some ⟨"not found"⟩ ∧
      fetchCalls (FetchSteps (examplePipeline exampleSteps)).2 = pre ++ [s] :=
  ⟨by decide,
    (FetchSteps_first_failure (examplePipeline exampleSteps)).2.1 ⟨"not found"⟩ (by decide)⟩

/-- C2: the calls `SetupGuest` adds to the session are, one command per call
and in order, a prefix of the four commands [mkdir GuestPath(), mkdir
GuestPath(output), mkdir /cache, cp -r MntPath(source) GuestPath(source)]; all
four are sent when every command goes through, and when command `k` (counted
from 0 here) is the first with a transport error or a non-zero exit status,
exactly the commands up to and including it are sent. -/
theorem SetupGuest_sends_leading_commands (p : BasePipeline) (s : Session) :
    provisioningCommands p.options =
      [ "mkdir \"" ++ p.options.GuestPath [] ++ "\"",
        "mkdir \"" ++ p.options.GuestPath ["output"] ++ "\"",
        "mkdir \"/cache\"",
        "cp -r \"" ++ p.options.MntPath ["source"] ++ "\" \"" ++
          p.options.GuestPath ["source"] ++ "\"" ] ∧
    (∃ k, k ≤ 4 ∧ (SetupGuest p s).2.sent =
      s.sent ++ ((provisioningCommands p.options).take k).map (fun c => ([c], true))) ∧
    ((∀ j, j < 4 → (setupReply p s j).succeeded) →
      (SetupGuest p s).2.sent =
        s.sent ++ (provisioningCommands p.options).map (fun c => ([c], true))) ∧
    (∀ k, k < 4 → (∀ j, j < k → (setupReply p s j).succeeded) →
      ¬ (setupReply p s k).succeeded →
      (SetupGuest p s).2.sent =
        s.sent ++ ((provisioningCommands p.options).take (k + 1)).map (fun c => ([c], true))) := by
  refine ⟨rfl, ?_, ?_, ?_⟩
  · rcases all_ok_or_first_bad 4 (fun j => (setupReply p s j).succeeded) with
      hall | ⟨k, hk, hgood, hbad⟩
    · refine ⟨4, le_refl _, ?_⟩
      rw [SetupGuest_all_ok p s hall]
      simp [provisioningCommands]
    · refine ⟨k + 1, hk, ?_⟩
      rw [SetupGuest_first_bad p s k hk hgood hbad]
  · intro hall
    rw [SetupGuest_all_ok p s hall]
  · intro k hk hgood hbad
    rw [SetupGuest_first_bad p s k hk hgood hbad]

/-- C2 at a concrete input: the second command answers exit status 1, and
exactly the first two commands are sent. -/
theorem SetupGuest_sends_leading_commands_witness :
    ¬ (setupReply (examplePipeline []) (exampleSession 1 ⟨1, "", none⟩) 1).succeeded ∧
    (SetupGuest (examplePipeline []) (exampleSession 1 ⟨1, "", none⟩)).2.sent =
      (exampleSession 1 ⟨1, "", none⟩).sent ++
        ((provisioningCommands (examplePipeline []).options).take (1 + 1)).map
          (fun c => ([c], true)) :=
  ⟨by unfold SendResult.succeeded; decide,
    (SetupGuest_sends_leading_commands (examplePipeline [])
      (exampleSession 1 ⟨1, "", none⟩)).2.2.2 1 (by decide)
      (fun j hj => by
        have hj0 : j = 0 := by omega
        subst hj0
        unfold SendResult.succeeded
        decide)
      (by unfold SendResult.succeeded; decide)⟩

/-- C3: for every session behaviour, every command `SetupGuest` sends is sent
while the logs are hidden, and when `SetupGuest` returns, with or without an
error, the logs are visible again: a session that was visible before the call
has the same visibility after it.  Nothing else of the session changes: the
earlier calls and the guest's behaviour are as before. -/
theorem SetupGuest_restores_log_visibility (p : BasePipeline) (s : Session) :
    (∀ sent ∈ (SetupGuest p s).2.sentSince s, sent.2 = true) ∧
    (SetupGuest p s).2.logsHidden = false ∧
    (s.logsHidden = false → (SetupGuest p s).2.logsHidden = s.logsHidden) ∧
    (∀ e, (SetupGuest p s).1 = some e → (SetupGuest p s).2.logsHidden = false) ∧
    ((SetupGuest p s).1 = none → (SetupGuest p s).2.logsHidden = false) ∧
    (SetupGuest p s).2.sent.take s.sent.length = s.sent ∧
    (SetupGuest p s).2.respond = s.respond := by
  rcases all_ok_or_first_bad 4 (fun j => (setupReply p s j).succeeded) with
    hall | ⟨k, hk, hgood, hbad⟩
  · rw [SetupGuest_all_ok p s hall]
    simp [Session.sentSince]
  · rw [SetupGuest_first_bad p s k hk hgood hbad]
    simp only [Session.sentSince, List.drop_left, List.take_left]
    refine ⟨?_, by simp⟩
    intro sent hsent
    obtain ⟨c, -, rfl⟩ := List.mem_map.mp hsent
    rfl

/-- C3 at a concrete input: the third command fails in transport; the session,
visible before the call, is visible after it. -/
theorem SetupGuest_restores_log_visibility_witness :
    (SetupGuest (examplePipeline []) (exampleSession 2 ⟨0, "", some ⟨"broken pipe"⟩⟩)).1 =
      some ⟨"broken pipe"⟩ ∧
    (SetupGuest (examplePipeline []) (exampleSession 2 ⟨0, "", some ⟨"broken pipe"⟩⟩)).2.logsHidden =
      (exampleSession 2 ⟨0, "", some ⟨"broken pipe"⟩⟩).logsHidden :=
  ⟨by decide,
    (SetupGuest_restores_log_visibility (examplePipeline [])
      (exampleSession 2 ⟨0, "", some ⟨"broken pipe"⟩⟩)).2.2.1 rfl⟩

/-- C4: error results of the two guest operations.  `SetupGuest`: when the
send of command `k` is made and returns a transport error, that error is the
result; when it returns no transport error but a non-zero exit status, the
result is an error whose message contains the command; the result is nil
exactly when every send made went through.  `ExportEnvironment`: it makes one
`SendChecked` call carrying the whole exported environment; a transport error
is returned as it is, a non-zero exit status gives an error whose message
contains the exit code in decimal, and the result is nil exactly when the send
went through. -/
theorem guest_operations_error_results (p : BasePipeline) (s : Session) :
    (∀ k e, k < 4 → (∀ j, j < k → (setupReply p s j).succeeded) →
      (setupReply p s k).err = some e → (SetupGuest p s).1 = some e) ∧
    (∀ k, k < 4 → (∀ j, j < k → (setupReply p s j).succeeded) →
      (setupReply p s k).err = none → (setupReply p s k).exit ≠ 0 →
      ∃ e, (SetupGuest p s).1 = some e ∧
        e.msg = "Geust command failed: " ++ (provisioningCommands p.options).getD k "" ∧
        ((provisioningCommands p.options).getD k "").data <:+: e.msg.data) ∧
    ((SetupGuest p s).1 = none ↔
      ∀ j, j < ((SetupGuest p s).2.sentSince s).length → (setupReply p s j).succeeded) ∧
    (ExportEnvironment p s).2.sentSince s = [(p.env.Export, s.logsHidden)] ∧
    (∀ e, (s.reply 0 p.env.Export).err = some e → (ExportEnvironment p s).1 = some e) ∧
    ((s.reply 0 p.env.Export).err = none → (s.reply 0 p.env.Export).exit ≠ 0 →
      ∃ e, (ExportEnvironment p s).1 = some e ∧
        e.msg = "Build failed with exit code: " ++ toString (s.reply 0 p.env.Export).exit ∧
        (toString (s.reply 0 p.env.Export).exit).data <:+: e.msg.data) ∧
    ((ExportEnvironment p s).1 = none ↔ (s.reply 0 p.env.Export).succeeded) := by
  refine ⟨?_, ?_, SetupGuest_nil_iff p s, ?_, ?_, ?_, ?_⟩
  · intro k e hk hgood herr
    have hbad : ¬ (setupReply p s k).succeeded := by
      intro h; rw [h.1] at herr; cases herr
    rw [SetupGuest_first_bad p s k hk hgood hbad]
    simp [guestError, herr]
  · intro k hk hgood herr hexit
    have hbad : ¬ (setupReply p s k).succeeded := fun h => hexit h.2
    rw [SetupGuest_first_bad p s k hk hgood hbad]
    refine ⟨_, rfl, by simp [guestError, herr, Errorf], ?_⟩
    refine ⟨("Geust command failed: ").data, [], ?_⟩
    simp [guestError, herr, Errorf]
  · simp [Session.sentSince, ExportEnvironment_sent]
  · intro e herr
    rw [ExportEnvironment_result, herr]
  · intro herr hexit
    rw [ExportEnvironment_result, herr]
    refine ⟨Errorf _, by simp only [hexit, ne_eq, not_false_eq_true, if_true], rfl, ?_⟩
    refine ⟨("Build failed with exit code: ").data, [], ?_⟩
    simp [Errorf]
  · rw [ExportEnvironment_result]
    cases herr : (s.reply 0 p.env.Export).err with
    | some e => simp [SendResult.succeeded, herr]
    | none =>
      by_cases hz : (s.reply 0 p.env.Export).exit = 0
      · simp [SendResult.succeeded, herr, hz]
      · simp [SendResult.succeeded, herr, hz]

/-- C4 at a concrete input: the export command answers exit status 2 without
transport error, and the returned error carries "2". -/
theorem guest_operations_error_results_witness :
    ∃ e, (ExportEnvironment (examplePipeline []) (exampleSession 0 ⟨2, "", none⟩)).1 = some e ∧
      e.msg = "Build failed with exit code: " ++
        toString ((exampleSession 0 ⟨2, "", none⟩).reply 0 (examplePipeline []).env.Export).exit ∧
      (toString ((exampleSession 0 ⟨2, "", none⟩).reply 0
        (examplePipeline []).env.Export).exit).data <:+: e.msg.data :=
  (guest_operations_error_results (examplePipeline [])
    (exampleSession 0 ⟨2, "", none⟩)).2.2.2.2.2.1 (by decide) (by decide)

/-- C5: for every run-options value the names of `CommonEnv` are the fixed
twelve, in the fixed order, with no name twice; pipelines with identical run
options get equal lists; WERCKER_APPLICATION_URL is the base URL followed by
"#application/" and the application id, and TERM is xterm-256color. -/
theorem CommonEnv_names_fixed (p q : BasePipeline) :
    (CommonEnv p).map pairName =
      ["WERCKER", "WERCKER_ROOT", "WERCKER_SOURCE_DIR", "WERCKER_CACHE_DIR",
        "WERCKER_OUTPUT_DIR", "WERCKER_PIPELINE_DIR", "WERCKER_REPORT_DIR",
        "WERCKER_APPLICATION_ID", "WERCKER_APPLICATION_NAME",
        "WERCKER_APPLICATION_OWNER_NAME", "WERCKER_APPLICATION_URL", "TERM"] ∧
    ((CommonEnv p).map pairName).Nodup ∧
    (∀ pair ∈ CommonEnv p, pair.length = 2) ∧
    (p.options = q.options → CommonEnv p = CommonEnv q) ∧
    lookupEnv "WERCKER_APPLICATION_URL" (CommonEnv p) =
      some (p.options.BaseURL ++ "#application/" ++ p.options.ApplicationID) ∧
    lookupEnv "TERM" (CommonEnv p) = some "xterm-256color" := by
  refine ⟨rfl, ?_, ?_, ?_, ?_, ?_⟩
  · rw [show (CommonEnv p).map pairName =
      ["WERCKER", "WERCKER_ROOT", "WERCKER_SOURCE_DIR", "WERCKER_CACHE_DIR",
        "WERCKER_OUTPUT_DIR", "WERCKER_PIPELINE_DIR", "WERCKER_REPORT_DIR",
        "WERCKER_APPLICATION_ID", "WERCKER_APPLICATION_NAME",
        "WERCKER_APPLICATION_OWNER_NAME", "WERCKER_APPLICATION_URL", "TERM"] from rfl]
    decide
  · intro pair hpair
    simp only [CommonEnv, List.mem_cons, List.mem_singleton, List.not_mem_nil, or_false] at hpair
    rcases hpair with h | h | h | h | h | h | h | h | h | h | h | h <;> rw [h] <;> rfl
  · intro h
    simp only [CommonEnv, h]
  · simp [CommonEnv, lookupEnv, pairName, pairValue]
  · simp [CommonEnv, lookupEnv, pairName, pairValue]

/-- C5 at a concrete input: two pipelines over the same run options and
different steps have the same common environment. -/
theorem CommonEnv_names_fixed_witness :
    CommonEnv (examplePipeline []) = CommonEnv (examplePipeline exampleSteps) :=
  (CommonEnv_names_fixed (examplePipeline []) (examplePipeline exampleSteps)).2.2.2.1 rfl

/-- C6, refuted as stated: for service name "db" and run id "a/b" the name
`Run` passes to container creation is "wercker-service-db-a/b", which
contains a '/'. -/
theorem Run_container_name_keeps_run_id_slash :
    createdNames (Run (exampleBox "db" "a/b")).calls = ["wercker-service-db-a/b"] ∧
    '/' ∈ ("wercker-service-db-a/b").data := by
  decide

/-- C6, amended: `Run` passes exactly one name to container creation, the
text "wercker-service-", the service name with every '/' replaced by '-', a
'-' and the run id; for every service name and every run id that itself holds
no '/', that name holds no '/'; for name "my/service" and run id "abc123" it is
"wercker-service-my-service-abc123". -/
theorem Run_container_name_no_slash (b : ServiceBox)
    (h : '/' ∉ b.options.PipelineID.data) :
    ∃ n, createdNames (Run b).calls = [n] ∧ '/' ∉ n.data ∧
      (b.Name = "my/service" → b.options.PipelineID = "abc123" →
        n = "wercker-service-my-service-abc123") := by
  refine ⟨"wercker-service-" ++ stringsReplaceAll b.Name '/' '-' ++ "-" ++
    b.options.PipelineID, ?_, ?_, ?_⟩
  · simp only [Run]
    split
    · rfl
    · split <;> rfl
  · simp only [String.data_append, stringsReplaceAll, List.mem_append, not_or]
    refine ⟨⟨⟨by decide, ?_⟩, by decide⟩, h⟩
    intro hmem
    obtain ⟨c, -, hc⟩ := List.mem_map.mp hmem
    by_cases hs : c = '/'
    · rw [if_pos hs] at hc
      exact absurd hc (by decide)
    · rw [if_neg hs] at hc
      exact hs hc
  · intro hn hid
    rw [hn, hid]
    decide

/-- C6, the amended claim at service name "my/service" and run id "abc123". -/
theorem Run_container_name_no_slash_witness :
    '/' ∉ (exampleBox "my/service" "abc123").options.PipelineID.data ∧
    ∃ n, createdNames (Run (exampleBox "my/service" "abc123")).calls = [n] ∧
      '/' ∉ n.data ∧
      ((exampleBox "my/service" "abc123").Name = "my/service" →
        (exampleBox "my/service" "abc123").options.PipelineID = "abc123" →
        n = "wercker-service-my-service-abc123") :=
  ⟨by decide, Run_container_name_no_slash (exampleBox "my/service" "abc123") (by decide)⟩

/-- C7: when the wait on the container returns without error and with exit
status 0, the monitor attempts no log retrieval; when it returns without
error and with a non-zero exit status (7 for one), the monitor attempts log
retrieval exactly once, for the same container id, with stdout and stderr
both requested. -/
theorem monitor_log_retrieval_by_status (client : Client) (container : Container) :
    (client.WaitContainer container.ID = (0, none) →
      logsCalls (monitor client container) = []) ∧
    (∀ status, status ≠ 0 → client.WaitContainer container.ID = (status, none) →
      ∃ opts, logsCalls (monitor client container) = [opts] ∧
        opts.Container = container.ID ∧ opts.Stdout = true ∧ opts.Stderr = true) ∧
    (client.WaitContainer container.ID = (7, none) →
      (logsCalls (monitor client container)).length = 1) := by
  have hone : ∀ status : Int, status ≠ 0 →
      client.WaitContainer container.ID = (status, none) →
      ∃ opts, logsCalls (monitor client container) = [opts] ∧
        opts.Container = container.ID ∧ opts.Stdout = true ∧ opts.Stderr = true := by
    intro status hstatus hwait
    refine ⟨⟨container.ID, true, true, Stream.Stderr, Stream.Stdout, false⟩, ?_, rfl, rfl, rfl⟩
    simp only [monitor, hwait, hstatus, ne_eq, not_false_eq_true, if_true]
    cases client.Logs _ <;> rfl
  refine ⟨?_, hone, ?_⟩
  · intro hwait
    simp [monitor, hwait, logsCalls]
  · intro hwait
    obtain ⟨opts, hcalls, -⟩ := hone 7 (by decide) hwait
    rw [hcalls]
    rfl

/-- C7 at a concrete input: the wait answers status 7 without error, and log
retrieval is attempted once. -/
theorem monitor_log_retrieval_by_status_witness :
    (logsCalls (monitor (exampleClient 7 none none) ⟨"c1"⟩)).length = 1 :=
  (monitor_log_retrieval_by_status (exampleClient 7 none none) ⟨"c1"⟩).2.2 rfl

/-- C8: for a docker client that answers status 0 whenever the wait answers
an error, a failed wait makes the monitor log the failure and the finished
line and nothing else: whatever status comes with the error, no log retrieval
is attempted and the log-retrieval abort is not reached. -/
theorem monitor_wait_failure_only_logged (client : Client) (container : Container)
    (e : Error) (hcontract : waitStatusZeroOnError client)
    (hwait : (client.WaitContainer container.ID).2 = some e) :
    monitor client container =
      [ MonitorEvent.waitContainer container.ID,
        MonitorEvent.errorln "Error waiting" e,
        MonitorEvent.debugln "Service container finished with status code:"
          (client.WaitContainer container.ID).1 container.ID ] ∧
    logsCalls (monitor client container) = [] ∧
    panics (monitor client container) = [] := by
  have hzero : (client.WaitContainer container.ID).1 = 0 :=
    hcontract container.ID (by rw [hwait]; exact Option.some_ne_none e)
  have htrace : monitor client container =
      [ MonitorEvent.waitContainer container.ID,
        MonitorEvent.errorln "Error waiting" e,
        MonitorEvent.debugln "Service container finished with status code:"
          (client.WaitContainer container.ID).1 container.ID ] := by
    simp [monitor, hzero, hwait]
  refine ⟨htrace, ?_, ?_⟩
  · rw [htrace]; rfl
  · rw [htrace]; rfl

/-- C8 at a concrete input: the wait on container c1 fails with "EOF" and
status 0, and log retrieval would fail with "boom"; the monitor only logs. -/
theorem monitor_wait_failure_only_logged_witness :
    waitStatusZeroOnError (exampleClient 0 (some ⟨"EOF"⟩) (some ⟨"boom"⟩)) ∧
    ((exampleClient 0 (some ⟨"EOF"⟩) (some ⟨"boom"⟩)).WaitContainer "c1").2 = some ⟨"EOF"⟩ ∧
    logsCalls (monitor (exampleClient 0 (some ⟨"EOF"⟩) (some ⟨"boom"⟩)) ⟨"c1"⟩) = [] ∧
    panics (monitor (exampleClient 0 (some ⟨"EOF"⟩) (some ⟨"boom"⟩)) ⟨"c1"⟩) = [] :=
  ⟨fun _ _ => rfl, rfl,
    (monitor_wait_failure_only_logged (exampleClient 0 (some ⟨"EOF"⟩) (some ⟨"boom"⟩))
      ⟨"c1"⟩ ⟨"EOF"⟩ (fun _ _ => rfl) rfl).2⟩

/-- C9: `Run` sends one creation request, for the image named by the box and
with its network setting, and returns an error exactly when that request
fails.  When creation fails, `Run` returns a nil handle with the creation
error, sends no start request, spawns no monitor and leaves the box as it was.
When creation succeeds, `Run` sends exactly one start request, for the id of
the created container, records that container as the current one of the box,
spawns the monitor for it, and returns it with a nil error, whatever the start
request answers. -/
theorem Run_error_iff_create_fails (b : ServiceBox) :
    ∃ opts : CreateContainerOptions,
      (Run b).calls.head? = some (ClientCall.createContainer opts) ∧
      opts.Config.Image = b.Name ∧ opts.Config.NetworkDisabled = b.networkDisabled ∧
      ((∃ handle e, (Run b).returned = some (handle, some e)) ↔
        ∃ e, (b.client.CreateContainer opts).2 = some e) ∧
      (∀ e, (b.client.CreateContainer opts).2 = some e →
        (Run b).returned = some (none, some e) ∧
        (Run b).calls = [ClientCall.createContainer opts] ∧
        startedIds (Run b).calls = [] ∧
        (Run b).spawned = [] ∧
        (Run b).box = b) ∧
      (∀ c, b.client.CreateContainer opts = (some c, none) →
        (Run b).returned = some (some c, none) ∧
        (Run b).calls =
          [ClientCall.createContainer opts, ClientCall.startContainer c.ID] ∧
        startedIds (Run b).calls = [c.ID] ∧
        (Run b).spawned = [c] ∧
        (Run b).box = { b with container := some c } ∧
        ∀ start : String → Option Error,
          (Run { b with client := { b.client with StartContainer := start } }).returned =
            some (some c, none)) := by
  refine ⟨⟨"wercker-service-" ++ stringsReplaceAll b.Name '/' '-' ++ "-" ++
    b.options.PipelineID, ⟨b.Name, b.networkDisabled⟩⟩, ?_, rfl, rfl, ?_, ?_, ?_⟩
  · simp only [Run]
    split
    · rfl
    · split <;> rfl
  · simp only [Run]
    generalize b.client.CreateContainer _ = created
    obtain ⟨handle, err⟩ := created
    cases err with
    | some e => simp
    | none => cases handle <;> simp
  · intro e he
    simp [Run, he, startedIds]
  · intro c hc
    simp [Run, hc, startedIds]

/-- C9 at a concrete input: creation yields container c1; `Run` returns it
with a nil error and sends one start request, for c1. -/
theorem Run_error_iff_create_fails_witness :
    (Run (exampleBox "db" "run1")).returned = some (some ⟨"c1"⟩, none) ∧
    startedIds (Run (exampleBox "db" "run1")).calls = ["c1"] :=
  (Run_error_iff_create_fails (exampleBox "db" "run1")).elim fun _ h =>
    ⟨(h.2.2.2.2.2 ⟨"c1"⟩ rfl).1, (h.2.2.2.2.2 ⟨"c1"⟩ rfl).2.2.1⟩

end Wercker
